import Mathlib

/-!
Verification of the micropad firmware (SSD1306 display driver, EC11 rotary
encoder, switch handling, USB HID media control) against its specification.

The Python sources are shallowly embedded: pure computations become Lean
functions, interrupt handlers become explicit state-passing functions, and
the byte traffic on the I2C bus / HID transport is modelled as explicit
traces of frames.  Machine bytes are `Nat` values; Python's arbitrary
precision integer arithmetic is `Int` where subtraction matters.
-/

namespace HackPad

/-! ## Constants from pins.py -/

/-- pins.py: switch debounce time in milliseconds. -/
def DEBOUNCE_TIME : Nat := 20

/-- pins.py: debounce time for the encoder rotation contacts (ms). -/
def ENCODER_DEBOUNCE_TIME : Nat := 2

/-- pins.py: display width in pixels. -/
def OLED_WIDTH : Nat := 128

/-- pins.py: display height in pixels. -/
def OLED_HEIGHT : Nat := 64

/-! ## SSD1306 display driver (src/Firmware/display.py)

An I2C transaction `i2c.writeto(addr, bs)` is modelled as the byte list
`bs`; a whole interaction is a `List (List Nat)`, one entry per bus frame.
-/

/-- display.py class constant: page select command base. -/
def SETPAGE : Nat := 0xB0

/-- display.py class constant: display off command. -/
def DISPLAY_OFF : Nat := 0xAE

/-- display.py class constant: display on command. -/
def DISPLAY_ON : Nat := 0xAF

/-- display.py class constant: contrast command. -/
def CONTRAST : Nat := 0x81

/-- display.py class constant: output-follows-RAM command. -/
def ENTIRE_ON : Nat := 0xA4

/-- display.py class constant: normal (non-inverted) display command. -/
def NORMAL : Nat := 0xA6

/-- display.py class constant: set start line command. -/
def SET_START_LINE : Nat := 0x40

/-- `write_cmd`: a command frame is the control byte 0x00 followed by the
command bytes (`bytes([0x00]) + cmd`). -/
def write_cmd (cmd : List Nat) : List Nat := 0x00 :: cmd

/-- `write_data`: a data frame is the control byte 0x40 followed by the
payload (`bytes([0x40]) + data`). -/
def write_data (data : List Nat) : List Nat := 0x40 :: data

/-- The SSD1306 driver state: geometry and the frame buffer `buf`
(a bytearray of `(height/8) * width` bytes in the constructor). -/
structure SSD1306 where
  width : Nat
  height : Nat
  buf : List Nat

/-- `self.pages = height // 8`. -/
def SSD1306.pages (d : SSD1306) : Nat := d.height / 8

/-- The init command list of `SSD1306.init_display`, byte for byte. -/
def init_commands : List Nat :=
  [DISPLAY_OFF,
   0xD5, 0x80,
   0xA8, 0x3F,
   0xD3, 0x00,
   SET_START_LINE,
   0x8D, 0x14,
   0x20, 0x00,
   0xA1,
   0xC8,
   0xDA, 0x12,
   CONTRAST, 0xCF,
   0xD9, 0xF1,
   0xDB, 0x40,
   ENTIRE_ON,
   NORMAL,
   DISPLAY_ON]

/-- `init_display` performs a single `write_cmd(bytes(init_commands))`:
one command frame on the bus. -/
def init_display_trace : List (List Nat) := [write_cmd init_commands]

/-- `SSD1306.show`: for each page, a page-select command frame, two column
address command frames, then the page's slice of the buffer
(`buf[page*width : page*width+width]`) as one data frame. -/
def SSD1306.show (d : SSD1306) : List (List Nat) :=
  (List.range d.pages).flatMap fun page =>
    [write_cmd [SETPAGE ||| page],
     write_cmd [0x00],
     write_cmd [0x10],
     write_data ((d.buf.drop (page * d.width)).take d.width)]

/-- `SSD1306.clear`: zeroes the whole buffer, then calls `show()`.
Returns the new driver state and the bus frames the call emits. -/
def SSD1306.clear (d : SSD1306) : SSD1306 × List (List Nat) :=
  let d1 : SSD1306 := { d with buf := List.replicate d.buf.length 0 }
  (d1, d1.show)

/-- `SSD1306.fill`: fills the buffer with 0xFF or 0x00 depending on the
truthiness of `color`, then calls `show()`. -/
def SSD1306.fill (d : SSD1306) (color : Nat) : SSD1306 × List (List Nat) :=
  let fill_byte : Nat := if color ≠ 0 then 0xFF else 0x00
  let d1 : SSD1306 := { d with buf := List.replicate d.buf.length fill_byte }
  (d1, d1.show)

/-- `SSD1306.pixel`: in-range check, then OR (set) or AND-NOT (clear) of the
bit `y % 8` in buffer byte `(y/8)*width + x`.  Python's `v & ~(1 << bit)`
on a non-negative `v` is exactly `Nat.ldiff v (1 <<< bit)`.  Coordinates are
`Nat`, so Python's `0 <= x` / `0 <= y` guards are implicit. -/
def SSD1306.pixel (d : SSD1306) (x y state : Nat) : SSD1306 :=
  if x < d.width ∧ y < d.height then
    let page := y / 8
    let bit := y % 8
    let index := page * d.width + x
    if state ≠ 0 then
      { d with buf := d.buf.set index ((d.buf.getD index 0) ||| (1 <<< bit)) }
    else
      { d with buf := d.buf.set index (Nat.ldiff (d.buf.getD index 0) (1 <<< bit)) }
  else d

/-- The flush trace exactly as the specification words it for a 128x64
display: pages 0..7 ascending; per page a command frame for page-select
(0xB0 ||| p), a command frame 0x00 (column low), a command frame 0x10
(column high), each prefixed with control byte 0x00, then one data frame
prefixed with control byte 0x40 holding that page's 128 buffer bytes. -/
def claimFlushTrace (buf : List Nat) : List (List Nat) :=
  (List.range 8).flatMap fun p =>
    [[0x00, 0xB0 ||| p],
     [0x00, 0x00],
     [0x00, 0x10],
     0x40 :: ((buf.drop (p * 128)).take 128)]

/-! ## EC11 rotary encoder (src/Firmware/encoder.py)

The interrupt handlers are modelled as state-passing functions.  Emitted
callback invocations are collected in a list: `callback_rotate(direction)`
calls carry an `Int` argument, `callback_button()` calls carry no argument
(`Unit`).  `time.ticks_ms()` values are read from MicroPython's wrapping
millisecond counter; the handlers subtract them with plain Python integer
arithmetic, which is exact `Int` subtraction of the two tick readings. -/

/-- MicroPython's `time.ticks_ms` counter wraps modulo this period
(2^30 on the rp2 port); tick readings live in `[0, TICKS_PERIOD)`. -/
def TICKS_PERIOD : Nat := 2 ^ 30

/-- The debounce guard exactly as the rotation/button/switch handlers
compute it: plain integer subtraction of the two tick readings, accepted
when the difference has reached the threshold
(`if current_time - last < threshold: return`). -/
def debounceAccept (now last threshold : Nat) : Bool :=
  decide ((threshold : Int) ≤ (now : Int) - (last : Int))

/-- Modelled from the spec: the decision rule the specification claims,
with the tick difference computed by unsigned modular subtraction so that
it stays correct across a wraparound of the tick counter. -/
def debounceAcceptModular (now last threshold : Nat) : Bool :=
  decide ((threshold : Nat) ≤ (now + TICKS_PERIOD - last) % TICKS_PERIOD)

/-- `EC11Encoder` timing and channel state relevant to `_handle_rotation`:
previous CLK/DT samples and the last accepted interrupt tick. -/
structure EncoderState where
  last_clk : Nat
  last_dt : Nat
  last_interrupt_time : Nat

/-- `EC11Encoder._handle_rotation`: debounce guard, then on a CLK change
to 0 emit +1 if DT reads 1, else -1; finally store the fresh CLK/DT
samples.  Returns the new state and the list of `callback_rotate`
arguments emitted. -/
def handleRotation (s : EncoderState) (now clk_val dt_val : Nat) :
    EncoderState × List Int :=
  if (now : Int) - (s.last_interrupt_time : Int) < ENCODER_DEBOUNCE_TIME then
    (s, [])
  else
    let out : List Int :=
      if clk_val ≠ s.last_clk then
        if clk_val = 0 then
          if dt_val = 1 then [1] else [-1]
        else []
      else []
    (⟨clk_val, dt_val, now⟩, out)

/-- The hardcoded 50 ms debounce window of `EC11Encoder._handle_button`. -/
def BUTTON_DEBOUNCE_MS : Nat := 50

/-- `EC11Encoder` state relevant to `_handle_button`. -/
structure ButtonState where
  button_press_time : Nat

/-- `EC11Encoder._handle_button`: 50 ms debounce guard, then if the switch
reads 0 (active low) invoke `callback_button()`.  The emitted events are
`Unit` values: the callback takes no argument. -/
def handleButton (s : ButtonState) (now sw_val : Nat) :
    ButtonState × List Unit :=
  if (now : Int) - (s.button_press_time : Int) < BUTTON_DEBOUNCE_MS then
    (s, [])
  else
    let s1 : ButtonState := ⟨now⟩
    if sw_val = 0 then (s1, [()]) else (s1, [])

/-! ## Switch handling and the poll loop (src/main.py)

The six switches of SWITCH_PINS are indexed by `Fin 6`.  `SwitchHandler`
state plus the module-global `last_display_update` form the shared state;
the interrupt handler `_handle_switch_press` and the poll-loop function
`update_display` act on it.  `update_display` returns the new state and,
when it refreshed the display, the active-switch list that the renderer
(`display.show_status`) was given. -/

/-- The shared mutable state of main.py that the claims concern:
per-switch `states` flags and `last_press_time`, and the module global
`last_display_update`. -/
structure MainState where
  states : Fin 6 → Bool
  last_press_time : Fin 6 → Nat
  last_display_update : Nat

/-- `SwitchHandler._handle_switch_press`: debounce guard with
DEBOUNCE_TIME, then record the accepted tick and set the switch's
`states` flag to True.  (The registered callback only drives the display
and touches no flag.) -/
def handleSwitchPress (st : MainState) (name : Fin 6) (now : Nat) :
    MainState :=
  if (now : Int) - (st.last_press_time name : Int) < DEBOUNCE_TIME then st
  else
    { st with
      last_press_time := Function.update st.last_press_time name now,
      states := Function.update st.states name true }

/-- `SwitchHandler.get_active_switches`: names whose flag is set. -/
def get_active_switches (st : MainState) : List (Fin 6) :=
  (List.finRange 6).filter fun n => st.states n

/-- `SwitchHandler.reset_states`: clears every flag. -/
def reset_states (st : MainState) : MainState :=
  { st with states := fun _ => false }

/-- `update_display`: every 500 ms, read the active switches, hand them to
the renderer (returned as `some active`), then reset all flags. -/
def update_display (st : MainState) (now : Nat) :
    MainState × Option (List (Fin 6)) :=
  if 500 < (now : Int) - (st.last_display_update : Int) then
    let st1 : MainState := { st with last_display_update := now }
    let active := get_active_switches st1
    (reset_states st1, some active)
  else (st, none)

/-- The two kinds of events that touch the switch flags: a falling-edge
interrupt on a switch pin (interrupt context) and one `update_display`
call of the poll loop. -/
inductive MainEvent where
  | press (name : Fin 6) (now : Nat)
  | poll (now : Nat)

/-- One step of the system: dispatch an event to the code that handles
it.  The second component is the active-switch list read by the renderer
during the step, if any. -/
def mainStep (st : MainState) : MainEvent → MainState × Option (List (Fin 6))
  | MainEvent.press name now => (handleSwitchPress st name now, none)
  | MainEvent.poll now => update_display st now

/-! ## USB HID media control (src/hid_control.py)

The HID transport (`self.keyboard`) is abstracted by which write
primitives it has and whether they succeed; a call of a missing primitive
raises AttributeError (Python attribute lookup), a failing call raises
some other exception.  Every transport interaction is recorded in a trace
of `HidEffect`s in program order, including the fixed `time.sleep(0.05)`
between press and release report. -/

/-- Consumer control code for volume up (hid_control.py). -/
def VOLUME_UP : Nat := 0xE9

/-- Consumer control code for volume down. -/
def VOLUME_DOWN : Nat := 0xEA

/-- Consumer control code for mute. -/
def VOLUME_MUTE : Nat := 0xE2

/-- Consumer control code for play/pause. -/
def PLAY_PAUSE : Nat := 0xCD

/-- Consumer control code for next track. -/
def NEXT_TRACK : Nat := 0xB5

/-- Consumer control code for previous track. -/
def PREV_TRACK : Nat := 0xB6

/-- Observable transport activity of the dispatcher. -/
inductive HidEffect where
  | send (report : List Nat)
  | write (report : List Nat)
  | sleepMs (ms : Nat)
deriving DecidableEq

/-- Python exceptions distinguished by `_send_media_command`. -/
inductive PyError where
  | attrError
  | otherError

/-- The underlying HID device: whether `send` / `write` exist as
attributes and whether calling them succeeds. -/
structure HidDevice where
  hasSend : Bool
  sendOk : Bool
  hasWrite : Bool
  writeOk : Bool

/-- `MediaControl` state after `__init__`: the `enabled` flag and the
selected HID device (None when absent). -/
structure MediaControl where
  enabled : Bool
  keyboard : Option HidDevice

/-- One `self.keyboard.send(b)` call: AttributeError when the attribute is
missing (no transport activity), otherwise the call happens and either
succeeds or raises some other exception. -/
def devSendCall (kbd : HidDevice) (b : List Nat) :
    List HidEffect × Except PyError Unit :=
  if kbd.hasSend then
    ([HidEffect.send b], if kbd.sendOk then Except.ok () else
      Except.error PyError.otherError)
  else ([], Except.error PyError.attrError)

/-- One `self.keyboard.write(b)` call, same shape as `devSendCall`. -/
def devWriteCall (kbd : HidDevice) (b : List Nat) :
    List HidEffect × Except PyError Unit :=
  if kbd.hasWrite then
    ([HidEffect.write b], if kbd.writeOk then Except.ok () else
      Except.error PyError.otherError)
  else ([], Except.error PyError.attrError)

/-- `MediaControl._send_media_command`: guard on `enabled` and
`keyboard`; build the 3-byte report; try send(report), sleep 50 ms,
send(zeros); on AttributeError fall back to write(report), sleep,
write(zeros) with every exception swallowed; on any other exception
swallow it.  The function never lets an exception escape, so it returns
just the transport trace. -/
def sendMediaCommand (mc : MediaControl) (code : Nat) : List HidEffect :=
  if !mc.enabled then []
  else
    match mc.keyboard with
    | none => []
    | some kbd =>
      let report : List Nat := [code &&& 0xFF, (code >>> 8) &&& 0xFF, 0]
      let tryBody : List HidEffect × Except PyError Unit :=
        match devSendCall kbd report with
        | (t1, Except.error e) => (t1, Except.error e)
        | (t1, Except.ok _) =>
          match devSendCall kbd [0, 0, 0] with
          | (t2, r2) => (t1 ++ [HidEffect.sleepMs 50] ++ t2, r2)
      match tryBody with
      | (t, Except.ok _) => t
      | (t, Except.error PyError.otherError) => t
      | (t, Except.error PyError.attrError) =>
        let fb : List HidEffect × Except PyError Unit :=
          match devWriteCall kbd report with
          | (u1, Except.error e) => (u1, Except.error e)
          | (u1, Except.ok _) =>
            match devWriteCall kbd [0, 0, 0] with
            | (u2, s2) => (u1 ++ [HidEffect.sleepMs 50] ++ u2, s2)
        t ++ fb.1

/-- `MediaControl.volume_up`: returns False without any transport call
when disabled; otherwise runs `_send_media_command(VOLUME_UP)` (which
cannot raise) and returns True. -/
def volume_up (mc : MediaControl) : List HidEffect × Bool :=
  if !mc.enabled then ([], false)
  else (sendMediaCommand mc VOLUME_UP, true)

/-- `MediaControl.volume_down`, same shape as `volume_up`. -/
def volume_down (mc : MediaControl) : List HidEffect × Bool :=
  if !mc.enabled then ([], false)
  else (sendMediaCommand mc VOLUME_DOWN, true)

/-- `MediaControl.volume_mute`, same shape as `volume_up`. -/
def volume_mute (mc : MediaControl) : List HidEffect × Bool :=
  if !mc.enabled then ([], false)
  else (sendMediaCommand mc VOLUME_MUTE, true)

/-- `MediaControl.play_pause`, same shape as `volume_up`. -/
def play_pause (mc : MediaControl) : List HidEffect × Bool :=
  if !mc.enabled then ([], false)
  else (sendMediaCommand mc PLAY_PAUSE, true)

/-- `MediaControl.next_track`, same shape as `volume_up`. -/
def next_track (mc : MediaControl) : List HidEffect × Bool :=
  if !mc.enabled then ([], false)
  else (sendMediaCommand mc NEXT_TRACK, true)

/-- `MediaControl.prev_track`, same shape as `volume_up`. -/
def prev_track (mc : MediaControl) : List HidEffect × Bool :=
  if !mc.enabled then ([], false)
  else (sendMediaCommand mc PREV_TRACK, true)

/-- A transport whose primary primitive is missing and whose fallback
primitive exists but fails on every call. -/
def mcBothWritesFail : MediaControl :=
  ⟨true, some ⟨false, false, true, false⟩⟩

/-! # Theorems -/

/-! ## Helper lemmas -/

/-- `pixel` never changes the width. -/
theorem SSD1306.pixel_width (d : SSD1306) (x y s : Nat) :
    (d.pixel x y s).width = d.width := by
  simp only [SSD1306.pixel]
  split
  · split <;> rfl
  · rfl

/-- `pixel` never changes the height. -/
theorem SSD1306.pixel_height (d : SSD1306) (x y s : Nat) :
    (d.pixel x y s).height = d.height := by
  simp only [SSD1306.pixel]
  split
  · split <;> rfl
  · rfl

/-- The buffer after an in-range `pixel(x, y, 1)`. -/
theorem SSD1306.pixel_set_buf (d : SSD1306) (x y : Nat)
    (hin : x < d.width ∧ y < d.height) :
    (d.pixel x y 1).buf =
      d.buf.set (y / 8 * d.width + x)
        ((d.buf.getD (y / 8 * d.width + x) 0) ||| (1 <<< (y % 8))) := by
  simp [SSD1306.pixel, hin]

/-- The buffer after an in-range `pixel(x, y, 0)`. -/
theorem SSD1306.pixel_clear_buf (d : SSD1306) (x y : Nat)
    (hin : x < d.width ∧ y < d.height) :
    (d.pixel x y 0).buf =
      d.buf.set (y / 8 * d.width + x)
        (Nat.ldiff (d.buf.getD (y / 8 * d.width + x) 0) (1 <<< (y % 8))) := by
  simp [SSD1306.pixel, hin]

/-- And-not expressed through kernel-computable operations, for
evaluating `Nat.ldiff` on concrete bytes. -/
theorem ldiff_eq_xor_land (v m : Nat) : Nat.ldiff v m = v ^^^ (v &&& m) := by
  apply Nat.eq_of_testBit_eq
  intro k
  rw [Nat.testBit_ldiff, Nat.testBit_xor, Nat.testBit_land]
  cases hv : v.testBit k <;> cases hm : m.testBit k <;> rfl

/-- Setting a bit that was clear and clearing it again restores the
original byte. -/
theorem lor_ldiff_cancel (v b : Nat) (h : v.testBit b = false) :
    Nat.ldiff (v ||| 1 <<< b) (1 <<< b) = v := by
  apply Nat.eq_of_testBit_eq
  intro k
  rw [Nat.testBit_ldiff, Nat.testBit_lor, Nat.one_shiftLeft]
  by_cases hk : k = b
  · subst hk
    simp [Nat.testBit_two_pow_self, h]
  · simp [Nat.testBit_two_pow_of_ne (fun hbk => hk hbk.symm)]

/-- The switch-press interrupt handler never clears a flag. -/
theorem handleSwitchPress_mono (st : MainState) (name : Fin 6) (now : Nat)
    (n : Fin 6) (h : st.states n = true) :
    (handleSwitchPress st name now).states n = true := by
  unfold handleSwitchPress
  split
  · exact h
  · show Function.update st.states name true n = true
    rw [Function.update_apply]
    split
    · rfl
    · exact h

/-- A flush on a display with at least one page puts frames on the bus. -/
theorem SSD1306.show_ne_nil (d : SSD1306) (h : 0 < d.pages) :
    d.show ≠ [] := by
  unfold SSD1306.show
  cases hr : List.range d.pages with
  | nil => exact absurd (List.range_eq_nil.mp hr) (by omega)
  | cons a l => simp [List.flatMap_cons]

/-! ## Claim C1 -/

/-- C1: on a 128x64 display, `show` walks the 8 pages in ascending order,
issuing per page the page-select, column-low and column-high command frames
(control byte 0x00) and then exactly one data frame (control byte 0x40)
with that page's 128 buffer bytes. -/
theorem C1_show_flush_protocol (buf : List Nat) (h : buf.length = 1024) :
    SSD1306.show ⟨128, 64, buf⟩ = claimFlushTrace buf ∧
    ∀ p, p < 8 → ((buf.drop (p * 128)).take 128).length = 128 := by
  constructor
  · simp only [SSD1306.show, claimFlushTrace, SSD1306.pages, write_cmd,
      write_data, SETPAGE]
  · intro p hp
    rw [List.length_take, List.length_drop, h]
    omega

/-- Witness for C1 at the freshly cleared buffer. -/
theorem C1_show_flush_protocol_witness :
    (List.replicate 1024 0).length = 1024 ∧
    (SSD1306.show ⟨128, 64, List.replicate 1024 0⟩ =
        claimFlushTrace (List.replicate 1024 0) ∧
      ∀ p, p < 8 →
        (((List.replicate 1024 (0 : Nat)).drop (p * 128)).take 128).length = 128) :=
  ⟨by rw [List.length_replicate],
   C1_show_flush_protocol (List.replicate 1024 0) (by rw [List.length_replicate])⟩

/-! ## Claim C2 -/

/-- C2: `init_display` emits exactly the 25 command bytes
0xAE, 0xD5, 0x80, 0xA8, 0x3F, 0xD3, 0x00, 0x40, 0x8D, 0x14, 0x20, 0x00,
0xA1, 0xC8, 0xDA, 0x12, 0x81, 0xCF, 0xD9, 0xF1, 0xDB, 0x40, 0xA4, 0xA6,
0xAF in this order, as a single command frame, before the first flush. -/
theorem C2_init_sequence :
    init_commands =
      [0xAE, 0xD5, 0x80, 0xA8, 0x3F, 0xD3, 0x00, 0x40, 0x8D, 0x14, 0x20, 0x00,
       0xA1, 0xC8, 0xDA, 0x12, 0x81, 0xCF, 0xD9, 0xF1, 0xDB, 0x40, 0xA4, 0xA6,
       0xAF] ∧
    init_display_trace = [0x00 ::
      [0xAE, 0xD5, 0x80, 0xA8, 0x3F, 0xD3, 0x00, 0x40, 0x8D, 0x14, 0x20, 0x00,
       0xA1, 0xC8, 0xDA, 0x12, 0x81, 0xCF, 0xD9, 0xF1, 0xDB, 0x40, 0xA4, 0xA6,
       0xAF]] := by
  constructor <;> rfl

/-! ## Claim C3 -/

/-- C3 (code bug): the handlers' debounce guard uses plain integer
subtraction of tick readings, not the unsigned modular subtraction the
claim states.  After the tick counter wraps (now = 1, last accepted tick
= TICKS_PERIOD - 1, threshold = ENCODER_DEBOUNCE_TIME = 2) the guard in
the code rejects the edge, while the claimed modular rule accepts it: the
real elapsed time, 2 ms, has reached the threshold. -/
theorem C3_debounce_wraparound_bug :
    debounceAccept 1 (TICKS_PERIOD - 1) ENCODER_DEBOUNCE_TIME = false ∧
    debounceAcceptModular 1 (TICKS_PERIOD - 1) ENCODER_DEBOUNCE_TIME = true := by
  exact ⟨by decide, by decide⟩

/-! ## Claim C4 -/

/-- C4: once the debounce guard accepts an interrupt, a CLK transition to 0
with DT reading 1 emits exactly one +1 tick, a CLK transition to 0 with DT
reading 0 emits exactly one -1 tick, and an interrupt without a CLK change
emits nothing. -/
theorem C4_quadrature_decode (s : EncoderState) (now clk_val dt_val : Nat)
    (hdb : (ENCODER_DEBOUNCE_TIME : Int) ≤
      (now : Int) - (s.last_interrupt_time : Int)) :
    (clk_val ≠ s.last_clk → clk_val = 0 → dt_val = 1 →
      (handleRotation s now clk_val dt_val).2 = [1]) ∧
    (clk_val ≠ s.last_clk → clk_val = 0 → dt_val = 0 →
      (handleRotation s now clk_val dt_val).2 = [-1]) ∧
    (clk_val = s.last_clk →
      (handleRotation s now clk_val dt_val).2 = []) := by
  have hno : ¬ ((now : Int) - (s.last_interrupt_time : Int) <
      ENCODER_DEBOUNCE_TIME) := not_lt.mpr hdb
  refine ⟨fun hne h0 h1 => ?_, fun hne h0 h1 => ?_, fun heq => ?_⟩
  · subst h0 h1; simp [handleRotation, hno, hne]
  · subst h0 h1; simp [handleRotation, hno, hne]
  · simp [handleRotation, hno, heq]

/-- Witness for C4: from CLK = 1, DT = 1 at tick 100 with last accepted
tick 0, a falling CLK edge with DT high emits exactly one +1. -/
theorem C4_quadrature_decode_witness :
    ((ENCODER_DEBOUNCE_TIME : Int) ≤ ((100 : Nat) : Int) - ((0 : Nat) : Int)) ∧
    (handleRotation ⟨1, 1, 0⟩ 100 0 1).2 = [1] :=
  ⟨by decide,
   (C4_quadrature_decode ⟨1, 1, 0⟩ 100 0 1 (by decide)).1
     (by decide) rfl rfl⟩

/-! ## Claim C5 -/

/-- C5 counterexample: on a 128x64 display whose first framebuffer byte is
0xFF, pixel(0,0,1) followed by pixel(0,0,0) leaves that byte at 0xFE, not
at its original value: the clear step erases a bit that was already set
before the set step. -/
theorem C5_pixel_roundtrip_counterexample :
    (((⟨128, 64, 0xFF :: List.replicate 1023 0⟩ : SSD1306).pixel 0 0 1).pixel
        0 0 0).buf.getD 0 0 ≠
      ((⟨128, 64, 0xFF :: List.replicate 1023 0⟩ : SSD1306) :
          SSD1306).buf.getD 0 0 := by
  simp only [SSD1306.pixel, ldiff_eq_xor_land]
  decide

/-- C5 (amended): for every in-range coordinate and every framebuffer in
which the bit holding that pixel is CLEAR, pixel(x,y,1) followed by
pixel(x,y,0) leaves the framebuffer byte holding the pixel at its original
value. -/
theorem C5_pixel_roundtrip_amended (d : SSD1306) (x y : Nat)
    (hx : x < d.width) (hy : y < d.height)
    (hbit : (d.buf.getD (y / 8 * d.width + x) 0).testBit (y % 8) = false) :
    ((d.pixel x y 1).pixel x y 0).buf.getD (y / 8 * d.width + x) 0 =
      d.buf.getD (y / 8 * d.width + x) 0 := by
  have hin : x < d.width ∧ y < d.height := ⟨hx, hy⟩
  have hin1 : x < (d.pixel x y 1).width ∧ y < (d.pixel x y 1).height := by
    rw [SSD1306.pixel_width, SSD1306.pixel_height]; exact hin
  have hb1 : (d.pixel x y 1).buf =
      d.buf.set (y / 8 * d.width + x)
        ((d.buf.getD (y / 8 * d.width + x) 0) ||| (1 <<< (y % 8))) :=
    SSD1306.pixel_set_buf d x y hin
  have hb0 : ((d.pixel x y 1).pixel x y 0).buf =
      (d.pixel x y 1).buf.set (y / 8 * d.width + x)
        (Nat.ldiff ((d.pixel x y 1).buf.getD (y / 8 * d.width + x) 0)
          (1 <<< (y % 8))) := by
    have hc := SSD1306.pixel_clear_buf (d.pixel x y 1) x y hin1
    rwa [SSD1306.pixel_width] at hc
  by_cases hlen : y / 8 * d.width + x < d.buf.length
  · have hget1 : (d.pixel x y 1).buf.getD (y / 8 * d.width + x) 0 =
        (d.buf.getD (y / 8 * d.width + x) 0) ||| (1 <<< (y % 8)) := by
      rw [hb1, List.getD_eq_getElem?_getD, List.getElem?_set_self]
      · rfl
      · exact hlen
    have hlen1 : y / 8 * d.width + x < (d.pixel x y 1).buf.length := by
      rw [hb1, List.length_set]; exact hlen
    rw [hb0, List.getD_eq_getElem?_getD, List.getElem?_set_self hlen1,
      Option.getD_some, hget1, lor_ldiff_cancel _ _ hbit]
  · have h1 : (d.pixel x y 1).buf = d.buf := by
      rw [hb1]; exact List.set_eq_of_length_le (by omega)
    have h2 : ((d.pixel x y 1).pixel x y 0).buf = d.buf := by
      rw [hb0, h1]; exact List.set_eq_of_length_le (by omega)
    rw [h2]

/-- Witness for C5 (amended): on an all-zero 128x64 framebuffer the
set/clear round trip at (5, 11) restores the (zero) byte. -/
theorem C5_pixel_roundtrip_amended_witness :
    (5 < (⟨128, 64, List.replicate 1024 0⟩ : SSD1306).width) ∧
    (11 < (⟨128, 64, List.replicate 1024 0⟩ : SSD1306).height) ∧
    ((((⟨128, 64, List.replicate 1024 0⟩ : SSD1306).buf.getD
        (11 / 8 * 128 + 5) 0).testBit (11 % 8)) = false) ∧
    ((((⟨128, 64, List.replicate 1024 0⟩ : SSD1306).pixel 5 11 1).pixel
        5 11 0).buf.getD (11 / 8 * 128 + 5) 0 =
      (⟨128, 64, List.replicate 1024 0⟩ : SSD1306).buf.getD
        (11 / 8 * 128 + 5) 0) :=
  ⟨by decide, by decide, by decide,
   C5_pixel_roundtrip_amended ⟨128, 64, List.replicate 1024 0⟩ 5 11
     (by decide) (by decide) (by decide)⟩

/-! ## Claim C8 -/

/-- C8 counterexample: the claim says the button debounce threshold is
strictly shorter than the rotation threshold, but the button handler uses
the hardcoded 50 ms window while rotation uses ENCODER_DEBOUNCE_TIME = 2 ms:
50 is not less than 2. -/
theorem C8_button_threshold_counterexample :
    ¬ (BUTTON_DEBOUNCE_MS < ENCODER_DEBOUNCE_TIME) := by decide

/-- C8 (amended): the button debounce threshold (50 ms) is distinct from
and strictly LONGER than the rotation threshold (2 ms), and an accepted
button press is reported by invoking the zero-argument callback exactly
once (the emitted event is a bare `Unit`, carrying no state or argument). -/
theorem C8_button_debounce_amended :
    ENCODER_DEBOUNCE_TIME < BUTTON_DEBOUNCE_MS ∧
    BUTTON_DEBOUNCE_MS ≠ ENCODER_DEBOUNCE_TIME ∧
    ∀ (s : ButtonState) (now : Nat),
      (BUTTON_DEBOUNCE_MS : Int) ≤ (now : Int) - (s.button_press_time : Int) →
        (handleButton s now 0).2 = [()] := by
  refine ⟨by decide, by decide, fun s now h => ?_⟩
  simp [handleButton, not_lt.mpr h]

/-- Witness for C8 (amended): a press at tick 100 with the last accepted
press at tick 0 fires the callback once. -/
theorem C8_button_debounce_amended_witness :
    ((BUTTON_DEBOUNCE_MS : Int) ≤ ((100 : Nat) : Int) -
      ((⟨0⟩ : ButtonState).button_press_time : Int)) ∧
    (handleButton ⟨0⟩ 100 0).2 = [()] :=
  ⟨by decide, C8_button_debounce_amended.2.2 ⟨0⟩ 100 (by decide)⟩

/-! ## Claim C6 -/

/-- C6: with the transport present and enabled (a device with a working
send primitive), volume_up puts exactly two writes on the transport: the
press report [0xE9, 0x00, 0x00], then — after the fixed 50 ms delay — the
all-zero release report, and returns True.  With the transport absent
(not enabled) it performs no transport call and returns False. -/
theorem C6_volume_up_press_release (mc : MediaControl) :
    (∀ kbd : HidDevice, mc.enabled = true → mc.keyboard = some kbd →
      kbd.hasSend = true → kbd.sendOk = true →
      volume_up mc =
        ([HidEffect.send [0xE9, 0x00, 0x00], HidEffect.sleepMs 50,
          HidEffect.send [0x00, 0x00, 0x00]], true)) ∧
    (mc.enabled = false → volume_up mc = ([], false)) := by
  constructor
  · intro kbd he hk hs hok
    simp [volume_up, sendMediaCommand, devSendCall, VOLUME_UP, he, hk, hs, hok]
    decide
  · intro he
    simp [volume_up, he]

/-- Witness for C6: a transport with a working send primitive. -/
theorem C6_volume_up_press_release_witness :
    (MediaControl.mk true (some ⟨true, true, true, true⟩)).enabled = true ∧
    volume_up (MediaControl.mk true (some ⟨true, true, true, true⟩)) =
      ([HidEffect.send [0xE9, 0x00, 0x00], HidEffect.sleepMs 50,
        HidEffect.send [0x00, 0x00, 0x00]], true) :=
  ⟨rfl,
   (C6_volume_up_press_release (MediaControl.mk true
       (some ⟨true, true, true, true⟩))).1
     ⟨true, true, true, true⟩ rfl rfl rfl rfl⟩

/-! ## Claim C7 -/

/-- When the primary send primitive is missing and the fallback write
primitive exists but fails, `_send_media_command` attempts exactly one
fallback write and swallows the failure. -/
theorem sendMediaCommand_fallback_attempted (mc : MediaControl)
    (kbd : HidDevice) (code : Nat) (he : mc.enabled = true)
    (hk : mc.keyboard = some kbd) (hns : kbd.hasSend = false)
    (hw : kbd.hasWrite = true) (hwo : kbd.writeOk = false) :
    sendMediaCommand mc code =
      [HidEffect.write [code &&& 0xFF, (code >>> 8) &&& 0xFF, 0]] := by
  simp [sendMediaCommand, devSendCall, devWriteCall, he, hk, hns, hw, hwo]

/-- When both primitives are missing, `_send_media_command` performs no
transport call and swallows the AttributeErrors. -/
theorem sendMediaCommand_no_prims (mc : MediaControl) (kbd : HidDevice)
    (code : Nat) (he : mc.enabled = true) (hk : mc.keyboard = some kbd)
    (hns : kbd.hasSend = false) (hw : kbd.hasWrite = false) :
    sendMediaCommand mc code = [] := by
  simp [sendMediaCommand, devSendCall, devWriteCall, he, hk, hns, hw]

/-- C7 counterexample: with the transport enabled, the primary send
primitive missing and the fallback write primitive failing on every call,
volume_up does NOT return the failure indicator False — the dispatcher
swallows the failure internally and volume_up reports success. -/
theorem C7_total_failure_counterexample :
    ¬ ((volume_up mcBothWritesFail).2 = false) := by decide

/-- C7 (amended): with the transport enabled, if the primary write
primitive is unavailable a secondary write primitive is attempted; but
when both the primary and the fallback write fail, every dispatcher
operation still returns True to its caller — the failure is caught and
logged inside `_send_media_command` and never surfaces, neither as an
exception nor as the boolean False (False is returned only when the
transport is disabled). -/
theorem C7_fallback_and_result_amended (mc : MediaControl)
    (kbd : HidDevice) (he : mc.enabled = true)
    (hk : mc.keyboard = some kbd) (hns : kbd.hasSend = false) :
    (kbd.hasWrite = true → kbd.writeOk = false →
      volume_up mc = ([HidEffect.write [0xE9, 0x00, 0x00]], true) ∧
      volume_down mc = ([HidEffect.write [0xEA, 0x00, 0x00]], true) ∧
      volume_mute mc = ([HidEffect.write [0xE2, 0x00, 0x00]], true) ∧
      play_pause mc = ([HidEffect.write [0xCD, 0x00, 0x00]], true) ∧
      next_track mc = ([HidEffect.write [0xB5, 0x00, 0x00]], true) ∧
      prev_track mc = ([HidEffect.write [0xB6, 0x00, 0x00]], true)) ∧
    (kbd.hasWrite = false →
      volume_up mc = ([], true) ∧
      volume_down mc = ([], true) ∧
      volume_mute mc = ([], true) ∧
      play_pause mc = ([], true) ∧
      next_track mc = ([], true) ∧
      prev_track mc = ([], true)) := by
  constructor
  · intro hw hwo
    refine ⟨?_, ?_, ?_, ?_, ?_, ?_⟩ <;>
      simp [volume_up, volume_down, volume_mute, play_pause, next_track,
        prev_track, he,
        sendMediaCommand_fallback_attempted mc kbd _ he hk hns hw hwo,
        VOLUME_UP, VOLUME_DOWN, VOLUME_MUTE, PLAY_PAUSE, NEXT_TRACK,
        PREV_TRACK] <;> decide
  · intro hw
    refine ⟨?_, ?_, ?_, ?_, ?_, ?_⟩ <;>
      simp [volume_up, volume_down, volume_mute, play_pause, next_track,
        prev_track, he,
        sendMediaCommand_no_prims mc kbd _ he hk hns hw]

/-- Witness for C7 (amended): the concrete failing transport. -/
theorem C7_fallback_and_result_amended_witness :
    mcBothWritesFail.enabled = true ∧
    volume_up mcBothWritesFail =
      ([HidEffect.write [0xE9, 0x00, 0x00]], true) :=
  ⟨rfl,
   ((C7_fallback_and_result_amended mcBothWritesFail
       ⟨false, false, true, false⟩ rfl rfl rfl).1 rfl rfl).1⟩

/-! ## Claim C9 -/

/-- C9: a switch's active flag goes from set to clear only in a poll-loop
`update_display` step, and in such a step the renderer is handed an
active-switch list that contains the switch before the reset; the flag
goes from clear to set only in a press-interrupt step on that very switch
whose elapsed time reached DEBOUNCE_TIME; and a press interrupt — the
only interrupt-context code touching the flags — never clears a flag. -/
theorem C9_active_flag_discipline (st : MainState) (e : MainEvent)
    (n : Fin 6) :
    (∀ name now, e = MainEvent.press name now → st.states n = true →
      (mainStep st e).1.states n = true) ∧
    ((mainStep st e).1.states n = false → st.states n = true →
      ∃ now l, e = MainEvent.poll now ∧ (mainStep st e).2 = some l ∧
        n ∈ l) ∧
    (st.states n = false → (mainStep st e).1.states n = true →
      ∃ now, e = MainEvent.press n now ∧
        (DEBOUNCE_TIME : Int) ≤ (now : Int) -
          (st.last_press_time n : Int)) := by
  cases e with
  | press name now =>
    refine ⟨?_, ?_, ?_⟩
    · intro _ _ _ h
      exact handleSwitchPress_mono st name now n h
    · intro hfalse htrue
      have hmono := handleSwitchPress_mono st name now n htrue
      simp only [mainStep] at hfalse
      rw [hmono] at hfalse
      exact absurd hfalse (by simp)
    · intro hfalse htrue
      simp only [mainStep] at htrue
      by_cases hc : (now : Int) - (st.last_press_time name : Int) <
          (DEBOUNCE_TIME : Int)
      · unfold handleSwitchPress at htrue
        rw [if_pos hc] at htrue
        rw [htrue] at hfalse
        exact absurd hfalse (by simp)
      · by_cases hn : n = name
        · subst hn
          exact ⟨now, rfl, not_lt.mp hc⟩
        · unfold handleSwitchPress at htrue
          rw [if_neg hc] at htrue
          have htrue' : Function.update st.states name true n = true := htrue
          rw [Function.update_noteq hn] at htrue'
          rw [htrue'] at hfalse
          exact absurd hfalse (by simp)
  | poll now =>
    refine ⟨?_, ?_, ?_⟩
    · intro _ _ heq _
      exact MainEvent.noConfusion heq
    · intro hfalse htrue
      by_cases hc : (500 : Int) < (now : Int) - (st.last_display_update : Int)
      · refine ⟨now, get_active_switches
          { st with last_display_update := now }, rfl, ?_, ?_⟩
        · simp only [mainStep, update_display]
          rw [if_pos hc]
        · exact List.mem_filter.mpr ⟨List.mem_finRange n, htrue⟩
      · have hsame : (mainStep st (MainEvent.poll now)).1 = st := by
          simp only [mainStep, update_display]
          rw [if_neg hc]
        rw [hsame, htrue] at hfalse
        exact absurd hfalse (by simp)
    · intro hfalse htrue
      by_cases hc : (500 : Int) < (now : Int) - (st.last_display_update : Int)
      · have hreset : (mainStep st (MainEvent.poll now)).1.states n = false := by
          simp only [mainStep, update_display]
          rw [if_pos hc]
          rfl
        rw [hreset] at htrue
        exact absurd htrue (by simp)
      · have hsame : (mainStep st (MainEvent.poll now)).1 = st := by
          simp only [mainStep, update_display]
          rw [if_neg hc]
        rw [hsame, hfalse] at htrue
        exact absurd htrue (by simp)

/-- Witness for C9: a press interrupt on switch 0 keeps the set flags of
a state in which every flag is set. -/
theorem C9_active_flag_discipline_witness :
    (mainStep ⟨fun _ => true, fun _ => 0, 0⟩
        (MainEvent.press 0 100)).1.states 0 = true :=
  (C9_active_flag_discipline ⟨fun _ => true, fun _ => 0, 0⟩
      (MainEvent.press 0 100) 0).1 0 100 rfl rfl

/-! ## Claim C10 -/

/-- C10: `clear` and `fill` do not only rewrite the framebuffer: each call
also flushes the new buffer to the display inside the same call — the bus
frames it emits are exactly `show()` of the updated state, and on a
display with at least one page that is a non-empty burst of bus traffic. -/
theorem C10_clear_fill_also_flush (d : SSD1306) (color : Nat)
    (h : 0 < d.pages) :
    (d.clear).2 = (d.clear).1.show ∧ (d.clear).2 ≠ [] ∧
    (d.fill color).2 = (d.fill color).1.show ∧ (d.fill color).2 ≠ [] := by
  have hc : 0 < (d.clear).1.pages := h
  have hf : 0 < (d.fill color).1.pages := h
  exact ⟨rfl, SSD1306.show_ne_nil _ hc, rfl, SSD1306.show_ne_nil _ hf⟩

/-- Witness for C10 at the 128x64 display. -/
theorem C10_clear_fill_also_flush_witness :
    (0 < (⟨128, 64, List.replicate 1024 0⟩ : SSD1306).pages) ∧
    (((⟨128, 64, List.replicate 1024 0⟩ : SSD1306).clear).2 =
        ((⟨128, 64, List.replicate 1024 0⟩ : SSD1306).clear).1.show ∧
      ((⟨128, 64, List.replicate 1024 0⟩ : SSD1306).clear).2 ≠ [] ∧
      ((⟨128, 64, List.replicate 1024 0⟩ : SSD1306).fill 1).2 =
        ((⟨128, 64, List.replicate 1024 0⟩ : SSD1306).fill 1).1.show ∧
      ((⟨128, 64, List.replicate 1024 0⟩ : SSD1306).fill 1).2 ≠ []) :=
  ⟨by decide,
   C10_clear_fill_also_flush ⟨128, 64, List.replicate 1024 0⟩ 1 (by decide)⟩

end HackPad
